import Mathlib

/-!
Verification of the sales-audit dashboard (`src/app.py`) against its
natural-language specification.

The embedding is shallow: each pandas/streamlit operation with decision
logic is translated to a Lean definition over explicit list-of-rows
tables.  Cells extracted from the PDF are strings or missing (`NaN`),
modelled by `Option String`; numeric values are modelled by `ℚ` (an
idealisation of Python floats, exact on the decimal literals this report
contains); dates are day/month/year triples.

Layout: all definitions first, then the theorems settling the claims.
-/

/-! ## Data model -/

/-- A raw cell as delivered by the table-extraction collaborator and
`pd.concat`: either a present string or missing (`NaN`). -/
abbrev RawCell := Option String

/-- One row of the raw concatenated table `df_bruto` (app.py line 85).
Camelot tables carry positional integer columns `0`..`6`; app.py line 33
later renames them, in order, to `ID_Cliente`, `Razao_Social_Completa`,
`Vendedor`, `Valor_Comissao`, `ID_Contrato`, `Status_Contrato`,
`Data_Cancelamento`. -/
structure BrutoRow where
  c0 : RawCell
  c1 : RawCell
  c2 : RawCell
  c3 : RawCell
  c4 : RawCell
  c5 : RawCell
  c6 : RawCell
deriving DecidableEq, Repr

/-- A calendar date, the result of `pd.to_datetime(..., format='%d/%m/%Y')`
on a cell that parses. -/
structure Date where
  dia : Nat
  mes : Nat
  ano : Nat
deriving DecidableEq, Repr

/-- One row of the cleaned table returned by `limpar_e_estruturar_dados`
(app.py lines 30-60): columns renamed per lines 33 and 55,
`Valor_Comissao` coerced to numeric (line 53, `NaN` on failure),
`Data_Cancelamento` coerced to a date (line 54, `NaT` on failure). -/
structure Row where
  ID_Cliente : RawCell
  Razao_Social : RawCell
  Vendedor : RawCell
  Valor_Comissao : Option ℚ
  ID_Contrato : RawCell
  Status_Contrato : RawCell
  Data_Cancelamento : Option Date
deriving DecidableEq, Repr

/-! ## The filter of app.py line 114

`df_filtrado = df[df['Vendedor'].isin(vendedor_selecionado) &
df['Status_Contrato'].isin(status_selecionado)]`

`pandas.Series.isin` tests membership of each cell in the given list; a
missing cell (`NaN`) is never equal to any string in the list, so it
tests `False`.  The multiselect options (lines 108-112) are built with
`.dropna().unique()`, hence the selected lists contain strings only,
which the type `List String` reflects. -/

/-- Membership test `cell.isin(selecionado)` for one cell: list membership
for a present string, `false` for a missing cell. -/
def cellIsin (cell : RawCell) (selecionado : List String) : Bool :=
  match cell with
  | none => false
  | some s => selecionado.contains s

/-- app.py line 114: keep the rows whose `Vendedor` is in
`vendedor_selecionado` and whose `Status_Contrato` is in
`status_selecionado`. -/
def df_filtrado (df : List Row) (vendedor_selecionado : List String)
    (status_selecionado : List String) : List Row :=
  df.filter (fun r =>
    cellIsin r.Vendedor vendedor_selecionado &&
    cellIsin r.Status_Contrato status_selecionado)

/-- app.py line 108: `df['Vendedor'].dropna().unique()` — the distinct
present values of the `Vendedor` column. -/
def vendedores (df : List Row) : List String :=
  (df.filterMap (·.Vendedor)).dedup

/-- app.py line 109: `df['Status_Contrato'].dropna().unique()` — the
distinct present values of the `Status_Contrato` column. -/
def status_opcoes (df : List Row) : List String :=
  (df.filterMap (·.Status_Contrato)).dedup

/-! ## Segment concatenation and repeated-header removal (app.py 84-88) -/

/-- app.py line 85: positional concatenation of the raw table segments
extracted from the PDF pages
(`pd.concat([table.df for table in tables], ignore_index=True)`). -/
def concat_segments (tables : List (List BrutoRow)) : List BrutoRow :=
  tables.flatten

/-- app.py line 88: drop every row whose column-`0` cell is the literal
string `ID` or the empty string (`df_bruto[~df_bruto[0].isin(['ID', ''])]`). -/
def remover_cabecalhos (rows : List BrutoRow) : List BrutoRow :=
  rows.filter (fun r => !(cellIsin r.c0 ["ID", ""]))

/-! ## Scalar parsing (models of the pandas coercions) -/

/-- Numeric value of a run of decimal digits. -/
def digitsToNat (l : List Char) : Nat :=
  l.foldl (fun a c => 10 * a + (c.toNat - 48)) 0

/-- Whitespace stripped by Python's `str.strip()` (ASCII subset; the
Unicode spaces Python also strips do not occur in this report). -/
def isEspaco (c : Char) : Bool :=
  c == ' ' || c == '\t' || c == '\n' || c == '\r' || c == '\x0b' || c == '\x0c'

/-- Python `str.strip()` on the character list: drop leading and trailing
whitespace. -/
def stripChars (l : List Char) : List Char :=
  ((l.dropWhile isEspaco).reverse.dropWhile isEspaco).reverse

/-- Shallow model of `pd.to_numeric(..., errors='coerce')` on one string
cell: an optional sign, then a decimal literal (`digits`, `digits.digits`,
`.digits` or `digits.`); anything else coerces to missing.  (The pandas
parser also accepts exponent forms that do not occur in this report; they
are outside the model.) -/
def parseNumeric (s : String) : Option ℚ :=
  let t := stripChars s.toList
  let signed : Bool × List Char :=
    match t with
    | '-' :: r => (true, r)
    | '+' :: r => (false, r)
    | _ => (false, t)
  let ip := signed.2.takeWhile Char.isDigit
  let rest := signed.2.dropWhile Char.isDigit
  let mag : Option ℚ :=
    match rest with
    | [] => if ip.isEmpty then none else some (mkRat (digitsToNat ip) 1)
    | '.' :: frac =>
        if frac.all Char.isDigit && !(ip.isEmpty && frac.isEmpty) then
          some (mkRat (digitsToNat ip * 10 ^ frac.length + digitsToNat frac)
            (10 ^ frac.length))
        else none
    | _ => none
  mag.map (fun q => if signed.1 then -q else q)

/-- Split a character list at every `/`. -/
def splitBarra : List Char → List (List Char)
  | [] => [[]]
  | c :: t =>
    if c = '/' then [] :: splitBarra t
    else
      match splitBarra t with
      | [] => [[c]]
      | h :: r => (c :: h) :: r

/-- Shallow model of `pd.to_datetime(..., format='%d/%m/%Y',
errors='coerce')` on one string cell: day and month of one or two digits,
a four-digit year, separated by `/`; an out-of-range day or month, or any
other shape, coerces to missing. -/
def parseDate (s : String) : Option Date :=
  match splitBarra s.toList with
  | [dl, ml, yl] =>
    if !dl.isEmpty && dl.length ≤ 2 && dl.all Char.isDigit &&
       !ml.isEmpty && ml.length ≤ 2 && ml.all Char.isDigit &&
       yl.length == 4 && yl.all Char.isDigit then
      let dia := digitsToNat dl
      let mes := digitsToNat ml
      if 1 ≤ dia && dia ≤ 31 && 1 ≤ mes && mes ≤ 12 then
        some ⟨dia, mes, digitsToNat yl⟩
      else none
    else none
  | _ => none

/-! ## The repair heuristic and the normalizer (app.py 30-60) -/

/-- Python `str(cell)` as used at app.py lines 38 and 45: a missing cell
(`NaN`) prints as the text `nan`. -/
def pyStr : RawCell → String
  | none => "nan"
  | some s => s

/-- Result of `re.search(r'(\d+\.\d{2})$', t)` on the stripped text `t`
(app.py line 38), decomposed: `some (pre, ds, d1, d2)` when
`t = pre ++ ds ++ ['.', d1, d2]` with `d1`, `d2` digits and `ds` the
maximal nonempty digit run before the dot (so `pre` does not end in a
digit); `none` when the pattern has no match. -/
def matchTrailingDecimal (t : List Char) :
    Option (List Char × List Char × Char × Char) :=
  match t.reverse with
  | d2 :: d1 :: p :: rest =>
    if p = '.' && d1.isDigit && d2.isDigit then
      if (rest.takeWhile Char.isDigit).isEmpty then none
      else some ((rest.dropWhile Char.isDigit).reverse,
        (rest.takeWhile Char.isDigit).reverse, d1, d2)
    else none
  | _ => none

/-- Value of `float(match.group(1))` (app.py line 40) for the matched
token `ds ++ "." ++ [d1, d2]`: its exact decimal value. -/
def float_do_token (ds : List Char) (d1 d2 : Char) : ℚ :=
  mkRat (digitsToNat ds * 100 + digitsToNat [d1, d2]) 100

/-- The `Valor_Comissao` cell between the repair loop and the numeric
coercion of line 53: either the raw extracted cell, or the float written
by line 42. -/
inductive ValorCell where
  | bruto (c : RawCell)
  | extraida (q : ℚ)
deriving DecidableEq, Repr

/-- A raw row after the repair loop of app.py lines 36-50. -/
structure LinhaCorrigida where
  c0 : RawCell
  c1 : RawCell
  c2 : RawCell
  valor : ValorCell
  c4 : RawCell
  c5 : RawCell
  c6 : RawCell
deriving DecidableEq, Repr

/-- app.py lines 36-50 for one row: when the stripped
`Razao_Social_Completa` text ends in a decimal token `\d+\.\d{2}`, write
the token's float value into `Valor_Comissao` (line 42) and replace the
text by the stripped remainder before the match (line 45); otherwise leave
both fields as they were. -/
def corrigir_linha (r : BrutoRow) : LinhaCorrigida :=
  match matchTrailingDecimal (stripChars (pyStr r.c1).toList) with
  | some (pre, ds, d1, d2) =>
      ⟨r.c0, some (String.mk (stripChars pre)), r.c2,
       .extraida (float_do_token ds d1 d2), r.c4, r.c5, r.c6⟩
  | none => ⟨r.c0, r.c1, r.c2, .bruto r.c3, r.c4, r.c5, r.c6⟩

/-- app.py line 53 (`pd.to_numeric(..., errors='coerce')`) applied to one
repaired commission cell. -/
def to_numeric_valor : ValorCell → Option ℚ
  | .bruto none => none
  | .bruto (some s) => parseNumeric s
  | .extraida q => some q

/-- app.py line 54 applied to one `Data_Cancelamento` cell. -/
def to_datetime_cell : RawCell → Option Date
  | none => none
  | some s => parseDate s

/-- app.py lines 33-55 for one row: rename the columns, run the repair
heuristic, and coerce `Valor_Comissao` and `Data_Cancelamento`. -/
def estruturar_linha (r : BrutoRow) : Row :=
  let r' := corrigir_linha r
  ⟨r'.c0, r'.c1, r'.c2, to_numeric_valor r'.valor, r'.c4, r'.c5,
   to_datetime_cell r'.c6⟩

/-- app.py `limpar_e_estruturar_dados` (lines 30-60): per-row repair and
coercion, then `dropna(subset=['Valor_Comissao'])` (line 58) — every row
whose commission did not coerce to a number is removed. -/
def limpar_e_estruturar_dados (df_bruto : List BrutoRow) : List Row :=
  (df_bruto.map estruturar_linha).filter (fun r => r.Valor_Comissao.isSome)

/-- Wording of the spec's repair trigger: the stripped text ends with a
decimal-formatted numeric token — one or more digits, a dot, exactly two
digits, at the end of the string. -/
def TerminaEmDecimal (t : List Char) : Prop :=
  ∃ pre ds d1 d2, t = pre ++ ds ++ ['.', d1, d2] ∧ ds ≠ [] ∧
    (∀ c ∈ ds, c.isDigit = true) ∧ d1.isDigit = true ∧ d2.isDigit = true

/-! ## The NL-to-code query bridge (spec §4.4)

The `evaluate` step of the bridge does not appear in `src/app.py`: the AI
tab (lines 165-188) sends a summary prompt to the text-generation
collaborator and renders the response text as markdown, executing
nothing.  The bridge definitions below are therefore modelled from the
spec. -/

/-- Decide whether `sub` is an initial segment of `l`. -/
def comecaCom : List Char → List Char → Bool
  | _, [] => true
  | [], _ :: _ => false
  | c :: cs, d :: ds => c == d && comecaCom cs ds

/-- Decide whether `sub` occurs contiguously inside `l`. -/
def ocorreEm : List Char → List Char → Bool
  | [], sub => comecaCom [] sub
  | c :: t, sub => comecaCom (c :: t) sub || ocorreEm t sub

/-- Occurrence of the token `tok` inside the text `s`. -/
def contemTexto (s tok : String) : Bool :=
  ocorreEm s.toList tok.toList

/-- Modelled from the spec: the validation gate of the restricted
execution context (§4.4, §8), absent from `src/app.py` — a generated
expression containing an import statement or a filesystem access is
disallowed. -/
def expressaoProibida (expr : String) : Bool :=
  contemTexto expr "import" || contemTexto expr "open(" ||
  contemTexto expr "os." || contemTexto expr "__"

/-- Failure of the query bridge: the generated expression was rejected or
raised (spec §7, `EvaluationError`). -/
inductive ErroPonte where
  | evaluationError (causa : String)
deriving DecidableEq, Repr

/-- An uninterpreted query result, scalar or table (spec §4.4: result shapes are
unconstrained). -/
inductive Resultado where
  | numero (q : ℚ)
  | tabela (rows : List Row)
deriving DecidableEq, Repr

/-- Sum of the present `Valor_Comissao` values, as in
`df['Valor_Comissao'].sum()` (app.py line 122). -/
def somaComissao (view : List Row) : ℚ :=
  (view.filterMap (·.Valor_Comissao)).sum

/-- Modelled from the spec: `evaluate` of the NL-to-Code Query Bridge,
absent from `src/app.py`.  Per §4.4 it executes the generated expression
in a restricted context whose only data binding is the filtered view; an
expression containing an import statement or a filesystem access fails
with `EvaluationError` before anything runs, and the minimal
tabular-operations namespace is the set of recognised expressions below;
anything unrecognised also fails with `EvaluationError`. -/
def evaluate (expr : String) (view : List Row) : Except ErroPonte Resultado :=
  if expressaoProibida expr then
    .error (.evaluationError "operacao nao permitida")
  else if expr = "len(df)" then
    .ok (.numero (view.length : ℚ))
  else if expr = "df['Valor_Comissao'].sum()" then
    .ok (.numero (somaComissao view))
  else if expr = "df" then
    .ok (.tabela view)
  else
    .error (.evaluationError "expressao nao reconhecida")

/-! ## Configuration failure and the session state (app.py 20-25, 100-169) -/

/-- The observable session state after one run of the script body. -/
structure EstadoApp where
  gemini_configurado : Bool
  botao_ia_disponivel : Bool
  vista_filtrada : List Row
  comissao_total : ℚ
  processo_encerrado : Bool
deriving Repr

/-- app.py control flow around the credential: lines 20-25 set
`GEMINI_CONFIGURADO` inside `try/except` (the `except` branch shows an
error message and falls through), line 114 computes the filtered view
without consulting the flag, line 122 the total-commission metric, and
line 169 disables only the AI-analysis button when the flag is false.  No
branch stops the process. -/
def executar_painel (configuracao : Except String Unit) (df : List Row)
    (vendedor_selecionado status_selecionado : List String) : EstadoApp :=
  let ok := match configuracao with | .ok _ => true | .error _ => false
  let vista := df_filtrado df vendedor_selecionado status_selecionado
  { gemini_configurado := ok
  , botao_ia_disponivel := ok
  , vista_filtrada := vista
  , comissao_total := somaComissao vista
  , processo_encerrado := false }

/-! ## Concrete rows used by counterexamples and witnesses -/

/-- A raw segment header row whose first cell is not `ID` and not empty:
the removal step of line 88 does not recognise it as a header. -/
def cabecalho_nome : BrutoRow :=
  ⟨some "Codigo", some "Razao Social", some "Vendedor", some "Comissao",
   some "Contrato", some "Status", some "Data"⟩

/-- A raw segment header row in the shape this report's pages carry. -/
def cabecalho_id : BrutoRow :=
  ⟨some "ID", some "Razao Social", some "Vendedor", some "Comissao",
   some "Contrato", some "Status", some "Data"⟩

/-- A first raw data row. -/
def dado_um : BrutoRow :=
  ⟨some "1", some "ACME LTDA", some "ANA", some "10.00",
   some "C1", some "Ativo", some "01/02/2023"⟩

/-- A second raw data row. -/
def dado_dois : BrutoRow :=
  ⟨some "2", some "BETA SA", some "BRUNO", some "20.00",
   some "C2", some "Inativo", some "05/03/2023"⟩

/-- A raw row whose commission cell holds unparseable text and whose other
cells are all present. -/
def linha_comissao_invalida : BrutoRow :=
  ⟨some "3", some "GAMA COMERCIO", some "CARLA", some "abc",
   some "C3", some "Ativo", some "10/04/2023"⟩

/-- A raw row whose `Razao_Social_Completa` text carries a trailing
commission value, the interleaving the repair step targets. -/
def linha_exemplo : BrutoRow :=
  ⟨some "4", some "ACME LTDA 15.00", some "ANA", none,
   some "C4", some "Ativo", none⟩

/-- A cleaned row whose `Vendedor` cell is missing (possible when a
mismatched segment leaves `NaN` cells after `pd.concat`). -/
def linha_sem_vendedor : Row :=
  ⟨some "1", some "ACME LTDA", none, some 10, some "C1", some "Ativo", none⟩

/-- A cleaned row with all categorical cells present. -/
def linha_completa : Row :=
  ⟨some "1", some "ACME LTDA", some "ANA", some 10, some "C1",
   some "Ativo", some ⟨1, 2, 2023⟩⟩

/-! ## Theorems -/

/-- C1: a row is retained by `df_filtrado` iff its `Vendedor` is a present
value belonging to the selected vendor list and its `Status_Contrato` is a
present value belonging to the selected status list; in particular a row
with a missing value in either column is excluded. -/
theorem df_filtrado_mem_iff (df : List Row)
    (vendedor_selecionado status_selecionado : List String) (r : Row) :
    r ∈ df_filtrado df vendedor_selecionado status_selecionado ↔
      r ∈ df ∧
      (∃ v, r.Vendedor = some v ∧ v ∈ vendedor_selecionado) ∧
      (∃ s, r.Status_Contrato = some s ∧ s ∈ status_selecionado) := by
  simp only [df_filtrado, List.mem_filter, Bool.and_eq_true]
  constructor
  · rintro ⟨hmem, hv, hs⟩
    refine ⟨hmem, ?_, ?_⟩
    · cases hV : r.Vendedor with
      | none => simp [cellIsin, hV] at hv
      | some v =>
        refine ⟨v, rfl, ?_⟩
        simpa [cellIsin, hV, List.contains, List.elem_iff] using hv
    · cases hS : r.Status_Contrato with
      | none => simp [cellIsin, hS] at hs
      | some s =>
        refine ⟨s, rfl, ?_⟩
        simpa [cellIsin, hS, List.contains, List.elem_iff] using hs
  · rintro ⟨hmem, ⟨v, hV, hvin⟩, ⟨s, hS, hsin⟩⟩
    refine ⟨hmem, ?_, ?_⟩
    · simp [cellIsin, hV, List.contains, List.elem_iff, hvin]
    · simp [cellIsin, hS, List.contains, List.elem_iff, hsin]

/-- C6: `df_filtrado` is idempotent — applying the same selection to the
already-filtered view yields exactly the row list obtained by applying it
once. -/
theorem df_filtrado_idempotente (df : List Row)
    (vendedor_selecionado status_selecionado : List String) :
    df_filtrado (df_filtrado df vendedor_selecionado status_selecionado)
        vendedor_selecionado status_selecionado =
      df_filtrado df vendedor_selecionado status_selecionado := by
  simp only [df_filtrado, List.filter_filter]
  exact List.filter_congr (fun r _ => by
    cases cellIsin r.Vendedor vendedor_selecionado <;>
      cases cellIsin r.Status_Contrato status_selecionado <;> rfl)

/-- C10: the header-removal step keeps a row iff it was present and its
first cell is neither the literal `ID` nor the empty string; every row
whose first cell is `ID` or empty is dropped, whatever its other cells
hold (so a genuine data row with an empty first cell is silently lost). -/
theorem remover_cabecalhos_mem_iff (rows : List BrutoRow) (r : BrutoRow) :
    r ∈ remover_cabecalhos rows ↔
      r ∈ rows ∧ r.c0 ≠ some "ID" ∧ r.c0 ≠ some "" := by
  simp only [remover_cabecalhos, List.mem_filter, Bool.not_eq_true']
  refine and_congr_right (fun _ => ?_)
  cases h : r.c0 with
  | none => simp [cellIsin, h]
  | some s =>
    simp only [cellIsin, h]
    constructor
    · intro hc
      have : ¬ (s ∈ ["ID", ""]) := by
        intro hmem
        rw [← List.elem_iff] at hmem
        simp [List.contains] at hc
        simp [hc] at hmem
      simp only [List.mem_cons, List.mem_singleton] at this
      push_neg at this
      exact ⟨by simp [this.1], by simp [this.2]⟩
    · rintro ⟨h1, h2⟩
      have hs1 : s ≠ "ID" := fun h' => h1 (by rw [h'])
      have hs2 : s ≠ "" := fun h' => h2 (by rw [h'])
      simp [List.contains, List.elem_iff, hs1, hs2]

/-- C7 counterexample: two segments of one header row plus one data row
each, whose header first cell is `Codigo` rather than `ID`: the
concatenated, header-filtered table has 4 rows, not the 2 data rows the
claim promises for every pair of segments. -/
theorem concat_dois_segmentos_contraexemplo :
    (remover_cabecalhos (concat_segments
        [[cabecalho_nome, dado_um], [cabecalho_nome, dado_dois]])).length ≠ 2 := by
  decide

/-- C7 amended: when each segment's header row carries `ID` (or the empty
string) in its first cell and neither data row does, concatenating the two
segments and removing repeated headers yields exactly the two data rows. -/
theorem concat_dois_segmentos (h1 d1 h2 d2 : BrutoRow)
    (hh1 : cellIsin h1.c0 ["ID", ""] = true)
    (hh2 : cellIsin h2.c0 ["ID", ""] = true)
    (hd1 : cellIsin d1.c0 ["ID", ""] = false)
    (hd2 : cellIsin d2.c0 ["ID", ""] = false) :
    remover_cabecalhos (concat_segments [[h1, d1], [h2, d2]]) = [d1, d2] := by
  simp [remover_cabecalhos, concat_segments, List.filter, hh1, hh2, hd1, hd2]

/-- Witness for the amended C7 at concrete segments with `ID` headers. -/
theorem concat_dois_segmentos_witness :
    remover_cabecalhos (concat_segments
        [[cabecalho_id, dado_um], [cabecalho_id, dado_dois]]) =
      [dado_um, dado_dois] :=
  concat_dois_segmentos cabecalho_id dado_um cabecalho_id dado_dois
    (by decide) (by decide) (by decide) (by decide)

/-- C5 counterexample: with the default selections (all distinct present
values of each column), a row whose `Vendedor` is missing is dropped, so
the filtered view differs from the original dataset. -/
theorem filtros_padrao_contraexemplo :
    df_filtrado [linha_sem_vendedor]
        (vendedores [linha_sem_vendedor]) (status_opcoes [linha_sem_vendedor]) ≠
      [linha_sem_vendedor] := by
  decide

/-- C5 amended: on a dataset where every row has a present `Vendedor` and a
present `Status_Contrato`, filtering with the default selections (all
distinct present values of each column) returns the original dataset. -/
theorem filtros_padrao_identidade (df : List Row)
    (hv : ∀ r ∈ df, r.Vendedor ≠ none)
    (hs : ∀ r ∈ df, r.Status_Contrato ≠ none) :
    df_filtrado df (vendedores df) (status_opcoes df) = df := by
  rw [df_filtrado, List.filter_eq_self]
  intro r hr
  rw [Bool.and_eq_true]
  constructor
  · cases hV : r.Vendedor with
    | none => exact absurd hV (hv r hr)
    | some v =>
      simp only [cellIsin, List.contains, List.elem_iff, vendedores,
        List.mem_dedup, List.mem_filterMap]
      exact ⟨r, hr, hV⟩
  · cases hS : r.Status_Contrato with
    | none => exact absurd hS (hs r hr)
    | some s =>
      simp only [cellIsin, List.contains, List.elem_iff, status_opcoes,
        List.mem_dedup, List.mem_filterMap]
      exact ⟨r, hr, hS⟩

/-- Witness for the amended C5 on a concrete fully-present dataset. -/
theorem filtros_padrao_identidade_witness :
    df_filtrado [linha_completa]
        (vendedores [linha_completa]) (status_opcoes [linha_completa]) =
      [linha_completa] :=
  filtros_padrao_identidade [linha_completa]
    (by decide) (by decide)

/-- C2 counterexample: a raw row all of whose cells are present but whose
commission text does not parse as a number is dropped whole by
`limpar_e_estruturar_dados`, refuting "a row is dropped only if it is
entirely missing". -/
theorem limpar_descarta_linha_nao_vazia :
    limpar_e_estruturar_dados [linha_comissao_invalida] = [] ∧
      linha_comissao_invalida.c0 ≠ none ∧ linha_comissao_invalida.c6 ≠ none := by
  refine ⟨by decide, by decide, by decide⟩

/-- C2 amended: the normalizer keeps a row iff its `Valor_Comissao`
coerces to a number (after the repair step); in particular an unparseable
`Data_Cancelamento` cell becomes missing without dropping the row, and no
whole-row missingness test exists. -/
theorem limpar_mantem_sse_comissao (df_bruto : List BrutoRow) (r : BrutoRow)
    (h : r ∈ df_bruto) :
    estruturar_linha r ∈ limpar_e_estruturar_dados df_bruto ↔
      (estruturar_linha r).Valor_Comissao ≠ none := by
  constructor
  · intro hm
    rw [limpar_e_estruturar_dados, List.mem_filter] at hm
    exact Option.isSome_iff_ne_none.mp hm.2
  · intro hne
    rw [limpar_e_estruturar_dados, List.mem_filter]
    exact ⟨List.mem_map_of_mem _ h, Option.isSome_iff_ne_none.mpr hne⟩

/-- Witness for the amended C2 at a concrete raw row. -/
theorem limpar_mantem_sse_comissao_witness :
    estruturar_linha dado_um ∈ limpar_e_estruturar_dados [dado_um] ↔
      (estruturar_linha dado_um).Valor_Comissao ≠ none :=
  limpar_mantem_sse_comissao [dado_um] dado_um (by decide)

/-- C9: every row of the normalized dataset carries a present, parsed
numeric `Valor_Comissao` — the `dropna` of line 58 removes all the
others. -/
theorem limpar_comissao_presente (df_bruto : List BrutoRow) (r : Row)
    (h : r ∈ limpar_e_estruturar_dados df_bruto) :
    ∃ q, r.Valor_Comissao = some q := by
  rw [limpar_e_estruturar_dados, List.mem_filter] at h
  exact Option.isSome_iff_exists.mp h.2

/-- Witness for C9 at a concrete normalized dataset. -/
theorem limpar_comissao_presente_witness :
    ∃ q, (estruturar_linha dado_um).Valor_Comissao = some q :=
  limpar_comissao_presente [dado_um] (estruturar_linha dado_um) (by decide)

/-- Soundness of the trailing-decimal matcher: a successful match
decomposes the text into a front part not ending in a digit, a nonempty
digit run, a dot, and two final digits. -/
theorem matchTrailingDecimal_some (t pre ds : List Char) (d1 d2 : Char)
    (h : matchTrailingDecimal t = some (pre, ds, d1, d2)) :
    t = pre ++ ds ++ ['.', d1, d2] ∧ ds ≠ [] ∧
      (∀ c ∈ ds, c.isDigit = true) ∧ d1.isDigit = true ∧ d2.isDigit = true ∧
      (∀ c, pre.getLast? = some c → c.isDigit = false) := by
  unfold matchTrailingDecimal at h
  split at h
  next e2 e1 p rest heq =>
    split at h
    next hcond =>
      split at h
      next => simp at h
      next hne =>
        simp only [Option.some.injEq, Prod.mk.injEq] at h
        obtain ⟨hpre, hds, h1, h2⟩ := h
        simp only [Bool.and_eq_true, decide_eq_true_eq] at hcond
        obtain ⟨⟨hp, hd1⟩, hd2⟩ := hcond
        subst hp h1 h2 hpre hds
        refine ⟨?_, ?_, ?_, hd1, hd2, ?_⟩
        · have ht : t = rest.reverse ++ ['.', e1, e2] := by
            have h' := congrArg List.reverse heq
            simpa using h'
          have hr : rest.reverse = (rest.dropWhile Char.isDigit).reverse
              ++ (rest.takeWhile Char.isDigit).reverse := by
            conv_lhs =>
              rw [← List.takeWhile_append_dropWhile Char.isDigit rest]
            simp
          rw [ht, hr, List.append_assoc]
        · intro hnil
          rw [List.reverse_eq_nil_iff] at hnil
          exact hne (by simp [hnil])
        · intro c hc
          rw [List.mem_reverse] at hc
          exact List.all_eq_true.mp List.all_takeWhile c hc
        · intro c hc
          rw [List.getLast?_reverse] at hc
          have hnd := List.head?_dropWhile_not Char.isDigit rest
          rw [hc] at hnd
          exact hnd
    next => simp at h
  next => simp at h

/-- Completeness of the trailing-decimal matcher: on text that ends with a
decimal token the matcher cannot fail. -/
theorem matchTrailingDecimal_none (t : List Char)
    (h : matchTrailingDecimal t = none) : ¬ TerminaEmDecimal t := by
  rintro ⟨pre, ds, d1, d2, ht, hne, hdig, h1, h2⟩
  obtain ⟨c, cs, hds⟩ : ∃ c cs, ds.reverse = c :: cs := by
    cases hr : ds.reverse with
    | nil => exact absurd (List.reverse_eq_nil_iff.mp hr) hne
    | cons c cs => exact ⟨c, cs, rfl⟩
  have hrev : t.reverse = d2 :: d1 :: '.' :: (ds.reverse ++ pre.reverse) := by
    rw [ht]; simp
  have hc : c.isDigit = true := by
    apply hdig
    rw [← List.mem_reverse, hds]
    exact List.mem_cons_self c cs
  unfold matchTrailingDecimal at h
  rw [hrev, hds, List.cons_append] at h
  simp [List.takeWhile_cons, hc, h1, h2] at h

/-- C3: when the stripped `Razao_Social_Completa` text of a raw row ends
with a decimal token (digits, a dot, exactly two digits), the repair step
moves the token's numeric value into `Valor_Comissao` and truncates the
text to the stripped remainder before the token; when it does not, the
repair step leaves every field as it was. -/
theorem corrigir_linha_correta (r : BrutoRow) :
    (TerminaEmDecimal (stripChars (pyStr r.c1).toList) →
      ∃ pre ds d1 d2,
        stripChars (pyStr r.c1).toList = pre ++ ds ++ ['.', d1, d2] ∧
        ds ≠ [] ∧ (∀ c ∈ ds, c.isDigit = true) ∧
        d1.isDigit = true ∧ d2.isDigit = true ∧
        corrigir_linha r =
          ⟨r.c0, some (String.mk (stripChars pre)), r.c2,
           .extraida (float_do_token ds d1 d2), r.c4, r.c5, r.c6⟩) ∧
    (¬ TerminaEmDecimal (stripChars (pyStr r.c1).toList) →
      corrigir_linha r = ⟨r.c0, r.c1, r.c2, .bruto r.c3, r.c4, r.c5, r.c6⟩) := by
  constructor
  · intro hT
    cases hm : matchTrailingDecimal (stripChars (pyStr r.c1).toList) with
    | none => exact absurd hT (matchTrailingDecimal_none _ hm)
    | some x =>
      obtain ⟨pre, ds, d1, d2⟩ := x
      obtain ⟨ht, hne, hdig, h1, h2, -⟩ :=
        matchTrailingDecimal_some _ _ _ _ _ hm
      refine ⟨pre, ds, d1, d2, ht, hne, hdig, h1, h2, ?_⟩
      unfold corrigir_linha
      rw [hm]
  · intro hT
    cases hm : matchTrailingDecimal (stripChars (pyStr r.c1).toList) with
    | none =>
      unfold corrigir_linha
      rw [hm]
    | some x =>
      obtain ⟨pre, ds, d1, d2⟩ := x
      obtain ⟨ht, hne, hdig, h1, h2, -⟩ :=
        matchTrailingDecimal_some _ _ _ _ _ hm
      exact absurd ⟨pre, ds, d1, d2, ht, hne, hdig, h1, h2⟩ hT

/-- Witness for C3 at a concrete row whose text carries a trailing
commission token. -/
theorem corrigir_linha_correta_witness :
    ∃ pre ds d1 d2,
      stripChars (pyStr linha_exemplo.c1).toList = pre ++ ds ++ ['.', d1, d2] ∧
      ds ≠ [] ∧ (∀ c ∈ ds, c.isDigit = true) ∧
      d1.isDigit = true ∧ d2.isDigit = true ∧
      corrigir_linha linha_exemplo =
        ⟨linha_exemplo.c0, some (String.mk (stripChars pre)), linha_exemplo.c2,
         .extraida (float_do_token ds d1 d2), linha_exemplo.c4,
         linha_exemplo.c5, linha_exemplo.c6⟩ :=
  (corrigir_linha_correta linha_exemplo).1
    ⟨"ACME LTDA ".toList, ['1', '5'], '0', '0',
     by decide, by decide, by decide, by decide, by decide⟩

/-- C4: a generated expression containing an import statement or a
filesystem access makes `evaluate` fail with `EvaluationError` — the
restricted context rejects it before executing anything (and the only
data `evaluate` can reach is the filtered view it is handed). -/
theorem evaluate_bloqueia_proibida (expr : String) (view : List Row)
    (h : contemTexto expr "import" = true ∨ contemTexto expr "open(" = true ∨
         contemTexto expr "os." = true) :
    evaluate expr view = .error (.evaluationError "operacao nao permitida") := by
  have hp : expressaoProibida expr = true := by
    unfold expressaoProibida
    rcases h with h | h | h <;> simp [h]
  unfold evaluate
  simp [hp]

/-- Witness for C4 at a concrete disallowed expression. -/
theorem evaluate_bloqueia_proibida_witness :
    evaluate "import os" [] =
      .error (.evaluationError "operacao nao permitida") :=
  evaluate_bloqueia_proibida "import os" [] (Or.inl (by decide))

/-- C8: a configuration failure of the text-generation credential leaves
the session running with only the AI trigger disabled: the filtered view
and the commission metric equal those of a successfully configured run,
and the process does not terminate. -/
theorem falha_configuracao_isolada (e : String) (df : List Row)
    (vendedor_selecionado status_selecionado : List String) :
    (executar_painel (.error e) df vendedor_selecionado
        status_selecionado).botao_ia_disponivel = false ∧
    (executar_painel (.error e) df vendedor_selecionado
        status_selecionado).vista_filtrada =
      (executar_painel (.ok ()) df vendedor_selecionado
        status_selecionado).vista_filtrada ∧
    (executar_painel (.error e) df vendedor_selecionado
        status_selecionado).comissao_total =
      (executar_painel (.ok ()) df vendedor_selecionado
        status_selecionado).comissao_total ∧
    (executar_painel (.error e) df vendedor_selecionado
        status_selecionado).processo_encerrado = false :=
  ⟨rfl, rfl, rfl, rfl⟩
